import Mathlib

/-!
Shallow embedding of the opencv4nodejs wrapper headers found in this
repository (the parker server vendors them):

* cc/face/EigenFaceRecognizer.h, cc/face/LBPHFaceRecognizer.h
* cc/tracking/Trackers/TrackerMOSSE.h, cc/tracking/Trackers/TrackerGOTURN.h
* cc/objdetect/objdetect.cc, cc/xfeatures2d/xfeatures2d.cc

The wrapper classes hold a `cv::Ptr` handle to a native OpenCV object and
forward `save`/`load` to the native library; the `.cc` files register member
wrapper types on a module target.  The native library itself is outside the
repository, so its calls are modelled abstractly: a filesystem mapping paths
to serialized models, a writability predicate, and a fresh-pointer counter
for allocations made by `cv::Algorithm::load`.  The model type `M` (the
contents of a trained model) is a type parameter.
-/

/-- OpenCV version triple (major, minor, revision). -/
structure CVVersion where
  major : Nat
  minor : Nat
  revision : Nat
deriving DecidableEq, Repr

/-- Modelled from the spec: the `CV_VERSION_GREATER_EQUAL(a, b, c)` build
guard used by the headers.  Its macro definition is not under src/; it is
the lexicographic comparison of the build version triple against
`(a, b, c)`. -/
def CVVersion.greaterEqual (v : CVVersion) (a b c : Nat) : Bool :=
  Nat.blt a v.major ||
    (v.major == a && (Nat.blt b v.minor || (v.minor == b && Nat.ble c v.revision)))

/-- Pointer identity of a native object held through a `cv::Ptr`. -/
abbrev Ptr := Nat

/-- A non-null `cv::Ptr` target: its pointer identity and the model state of
the native object it points to. -/
structure Handle (M : Type) where
  ptr : Ptr
  model : M
deriving DecidableEq, Repr

/-- The environment the native library acts on: the filesystem it serializes
models to, which paths it can write, and the next fresh pointer used when it
allocates a new object. -/
structure NativeEnv (M : Type) where
  fs : String → Option M
  writable : String → Bool
  nextPtr : Ptr

/-- Errors produced by the native library itself. -/
inductive NativeErr where
  | cannotWrite (path : String)
  | fileNotFound (path : String)
deriving DecidableEq, Repr

/-- Outcome channel of a wrapper entry point: either a native-library error,
carried unchanged, or the crash caused by dereferencing a null handle.
`nullDeref` models the null-pointer dereference itself (the wrapper has no
guard); it is not a wrapper-side error check. -/
inductive Err where
  | native (e : NativeErr)
  | nullDeref
deriving DecidableEq, Repr

/-- A native-library call as observed at the wrapper boundary:
`saveOn p path` is `handle->save(path)` on the object at `p`,
`loadOn p path` is the instance-method `handle->load(path)`, and
`algoLoad cls path` is the static `cv::Algorithm::load<cls>(path)`. -/
inductive NCall where
  | saveOn (p : Ptr) (path : String)
  | loadOn (p : Ptr) (path : String)
  | algoLoad (cls : String) (path : String)
deriving DecidableEq, Repr

/-- Modelled from the spec: `cv::face::FaceRecognizer::save(path)` persists
the model at the path in the native serialization format; the native
implementation is not under src/.  It fails when the path is not
writable. -/
def nativeSave {M : Type} (m : M) (path : String) (env : NativeEnv M) :
    Except NativeErr (NativeEnv M) :=
  if env.writable path then
    Except.ok { env with fs := fun p => if p = path then some m else env.fs p }
  else
    Except.error (NativeErr.cannotWrite path)

/-- Modelled from the spec: the instance method
`cv::face::FaceRecognizer::load(path)` (used below OpenCV 3.3.0) restores
the model state of the existing object from the path; the native
implementation is not under src/.  It fails when no model is stored at the
path. -/
def nativeInstanceLoad {M : Type} (path : String) (env : NativeEnv M) :
    Except NativeErr M :=
  match env.fs path with
  | some m => Except.ok m
  | none => Except.error (NativeErr.fileNotFound path)

/-- Modelled from the spec: `cv::Algorithm::load<T>(path)` constructs a
fresh native object deserialized from the path; the native implementation
is not under src/.  A successful load allocates a new pointer. -/
def algorithmLoad {M : Type} (path : String) (env : NativeEnv M) :
    Except NativeErr (Handle M × NativeEnv M) :=
  match env.fs path with
  | some m => Except.ok (⟨env.nextPtr, m⟩, { env with nextPtr := env.nextPtr + 1 })
  | none => Except.error (NativeErr.fileNotFound path)

/-- Wrapper state shared by `EigenFaceRecognizer` and `LBPHFaceRecognizer`:
the `cv::Ptr<cv::face::FaceRecognizer> faceRecognizer` field, possibly
null. -/
structure FaceRecognizerWrapper (M : Type) where
  faceRecognizer : Option (Handle M)
deriving DecidableEq, Repr

/-- Transcription of the `save` body shared verbatim by
EigenFaceRecognizer.h and LBPHFaceRecognizer.h:
`faceRecognizer->save(path);`.  The handle is dereferenced with no guard;
a null handle crashes before any native call, and otherwise the single
native call `handle->save(path)` is made and its outcome returned
unchanged.  The first component is the trace of native calls made. -/
def FaceRecognizerWrapper.save {M : Type} (w : FaceRecognizerWrapper M)
    (path : String) (env : NativeEnv M) :
    List NCall × Except Err (FaceRecognizerWrapper M × NativeEnv M) :=
  match w.faceRecognizer with
  | none => ([], Except.error Err.nullDeref)
  | some h =>
    ([NCall.saveOn h.ptr path],
      match nativeSave h.model path env with
      | Except.ok env2 => Except.ok (w, env2)
      | Except.error e => Except.error (Err.native e))

/-- Transcription of the `load` body shared by EigenFaceRecognizer.h and
LBPHFaceRecognizer.h up to the template argument `cls`:
on `CV_VERSION_GREATER_EQUAL(3, 3, 0)` it executes
`faceRecognizer = cv::Algorithm::load<cls>(path);`, reassigning the field
to a freshly loaded handle, and otherwise it executes
`faceRecognizer->load(path);`, mutating the pointed-to object in place. -/
def FaceRecognizerWrapper.loadAs {M : Type} (cls : String) (v : CVVersion)
    (w : FaceRecognizerWrapper M) (path : String) (env : NativeEnv M) :
    List NCall × Except Err (FaceRecognizerWrapper M × NativeEnv M) :=
  if v.greaterEqual 3 3 0 then
    ([NCall.algoLoad cls path],
      match algorithmLoad path env with
      | Except.ok (h, env2) => Except.ok (⟨some h⟩, env2)
      | Except.error e => Except.error (Err.native e))
  else
    match w.faceRecognizer with
    | none => ([], Except.error Err.nullDeref)
    | some h =>
      ([NCall.loadOn h.ptr path],
        match nativeInstanceLoad path env with
        | Except.ok m => Except.ok (⟨some ⟨h.ptr, m⟩⟩, env)
        | Except.error e => Except.error (Err.native e))

/-- `EigenFaceRecognizer::save` from EigenFaceRecognizer.h. -/
def EigenFaceRecognizer.save {M : Type} (w : FaceRecognizerWrapper M)
    (path : String) (env : NativeEnv M) :
    List NCall × Except Err (FaceRecognizerWrapper M × NativeEnv M) :=
  FaceRecognizerWrapper.save w path env

/-- `EigenFaceRecognizer::load` from EigenFaceRecognizer.h: the template
argument of `cv::Algorithm::load` is `cv::face::EigenFaceRecognizer`. -/
def EigenFaceRecognizer.load {M : Type} (v : CVVersion)
    (w : FaceRecognizerWrapper M) (path : String) (env : NativeEnv M) :
    List NCall × Except Err (FaceRecognizerWrapper M × NativeEnv M) :=
  FaceRecognizerWrapper.loadAs "cv::face::EigenFaceRecognizer" v w path env

/-- `LBPHFaceRecognizer::save` from LBPHFaceRecognizer.h (textually the same
body as the Eigen variant). -/
def LBPHFaceRecognizer.save {M : Type} (w : FaceRecognizerWrapper M)
    (path : String) (env : NativeEnv M) :
    List NCall × Except Err (FaceRecognizerWrapper M × NativeEnv M) :=
  FaceRecognizerWrapper.save w path env

/-- `LBPHFaceRecognizer::load` from LBPHFaceRecognizer.h: the template
argument of `cv::Algorithm::load` is `cv::face::LBPHFaceRecognizer`. -/
def LBPHFaceRecognizer.load {M : Type} (v : CVVersion)
    (w : FaceRecognizerWrapper M) (path : String) (env : NativeEnv M) :
    List NCall × Except Err (FaceRecognizerWrapper M × NativeEnv M) :=
  FaceRecognizerWrapper.loadAs "cv::face::LBPHFaceRecognizer" v w path env

/-- `getFaceRecognizer` from both face headers: `return faceRecognizer;`.
Rendered as a state function returning the observed value together with the
(unchanged) wrapper state. -/
def FaceRecognizerWrapper.getFaceRecognizer {M : Type}
    (w : FaceRecognizerWrapper M) :
    Option (Handle M) × FaceRecognizerWrapper M :=
  (w.faceRecognizer, w)

/-- Wrapper state shared by `TrackerMOSSE` and `TrackerGOTURN`: the
`cv::Ptr` tracker field, possibly null. -/
structure TrackerWrapper (M : Type) where
  tracker : Option (Handle M)
deriving DecidableEq, Repr

/-- `getTracker` from TrackerMOSSE.h and TrackerGOTURN.h:
`return tracker;`, rendered as a state function like
`getFaceRecognizer`. -/
def TrackerWrapper.getTracker {M : Type} (w : TrackerWrapper M) :
    Option (Handle M) × TrackerWrapper M :=
  (w.tracker, w)

/-- The members declared in the class body of EigenFaceRecognizer.h. -/
def EigenFaceRecognizer.declaredMembers : List String :=
  ["faceRecognizer", "save", "load", "Init", "New", "constructor",
    "getFaceRecognizer"]

/-- The members declared in the class body of LBPHFaceRecognizer.h. -/
def LBPHFaceRecognizer.declaredMembers : List String :=
  ["faceRecognizer", "save", "load", "Init", "NewWorker", "New",
    "constructor", "getFaceRecognizer"]

/-- The members declared in the class body of TrackerMOSSE.h. -/
def TrackerMOSSE.declaredMembers : List String :=
  ["tracker", "Init", "New", "constructor", "getTracker"]

/-- The members declared in the class body of TrackerGOTURN.h. -/
def TrackerGOTURN.declaredMembers : List String :=
  ["tracker", "Init", "New", "constructor", "getTracker"]

/-- Build configuration the preprocessor conditions range over: the OpenCV
version and the `HAVE_OPENCV_OBJDETECT` / `HAVE_OPENCV_XFEATURES2D` module
flags. -/
structure BuildConfig where
  version : CVVersion
  haveObjdetect : Bool
  haveXFeatures2d : Bool
deriving DecidableEq, Repr

/-- The declarations of the six source files that survive preprocessing
under a build configuration.  Transcribes the preprocessor structure: the
face headers are unguarded; TrackerMOSSE.h is wrapped in
`CV_VERSION_GREATER_EQUAL(3, 4, 0)`, TrackerGOTURN.h in
`CV_VERSION_GREATER_EQUAL(3, 2, 0)`; objdetect.cc is wrapped in
`HAVE_OPENCV_OBJDETECT`, xfeatures2d.cc in `HAVE_OPENCV_XFEATURES2D`. -/
def compiledSurface (cfg : BuildConfig) : List String :=
  ["EigenFaceRecognizer", "LBPHFaceRecognizer"]
    ++ (if cfg.version.greaterEqual 3 4 0 then ["TrackerMOSSE"] else [])
    ++ (if cfg.version.greaterEqual 3 2 0 then ["TrackerGOTURN"] else [])
    ++ (if cfg.haveObjdetect then ["Objdetect::Init"] else [])
    ++ (if cfg.haveXFeatures2d then ["XFeatures2d::Init"] else [])

/-- A module-registration target: the names registered on it, in order. -/
abbrev Target := List String

/-- Modelled from the spec: `CascadeClassifier::Init(target)` registers that
wrapper type on the target.  CascadeClassifier.h is not under src/; the spec
describes each member Init as registering the wrapper under the module. -/
def CascadeClassifier.Init (target : Target) : Target :=
  target ++ ["CascadeClassifier"]

/-- Modelled from the spec: `HOGDescriptor::Init(target)` registers that
wrapper type on the target (HOGDescriptor.h is not under src/). -/
def HOGDescriptor.Init (target : Target) : Target :=
  target ++ ["HOGDescriptor"]

/-- Modelled from the spec: `DetectionROI::Init(target)` registers that
wrapper type on the target (DetectionROI.h is not under src/). -/
def DetectionROI.Init (target : Target) : Target :=
  target ++ ["DetectionROI"]

/-- Modelled from the spec: `SIFTDetector::Init(target)` registers that
wrapper type on the target (SIFTDetector.h is not under src/). -/
def SIFTDetector.Init (target : Target) : Target :=
  target ++ ["SIFTDetector"]

/-- Modelled from the spec: `SURFDetector::Init(target)` registers that
wrapper type on the target (SURFDetector.h is not under src/). -/
def SURFDetector.Init (target : Target) : Target :=
  target ++ ["SURFDetector"]

/-- Transcription of `Objdetect::Init` from objdetect.cc: it invokes
`CascadeClassifier::Init(target)`, then `HOGDescriptor::Init(target)`, then
`DetectionROI::Init(target)`, in that source order. -/
def Objdetect.Init (target : Target) : Target :=
  DetectionROI.Init (HOGDescriptor.Init (CascadeClassifier.Init target))

/-- Transcription of `XFeatures2d::Init` from xfeatures2d.cc: it invokes
`SIFTDetector::Init(target)`, then `SURFDetector::Init(target)`, in that
source order. -/
def XFeatures2d.Init (target : Target) : Target :=
  SURFDetector.Init (SIFTDetector.Init target)

/-- A concrete filesystem fixture: path "f" holds the serialized model 7. -/
def fsA : String → Option Nat :=
  fun p => if p = "f" then some 7 else none

/-- A concrete native environment over `fsA` with every path writable. -/
def envA : NativeEnv Nat :=
  ⟨fsA, fun _ => true, 1⟩

/-- A concrete native environment over `fsA` with no path writable. -/
def envNoWrite : NativeEnv Nat :=
  ⟨fsA, fun _ => false, 1⟩

/-- A concrete wrapper fixture holding the handle at pointer 0 with model 5. -/
def wA : FaceRecognizerWrapper Nat :=
  ⟨some ⟨0, 5⟩⟩

/-- C1 fails as stated: on OpenCV 3.3.0 the single native call made by
`load` is the static `cv::Algorithm::load`, not a call on the handle the
wrapper already holds (pointer 0 here, on which no call appears in the
trace); moreover `save` on a wrapper with a null handle makes no native
call at all. -/
theorem c1_counterexample :
    (EigenFaceRecognizer.load ⟨3, 3, 0⟩ wA "f" envA).1
        = [NCall.algoLoad "cv::face::EigenFaceRecognizer" "f"]
      ∧ NCall.saveOn 0 "f" ∉ (EigenFaceRecognizer.load ⟨3, 3, 0⟩ wA "f" envA).1
      ∧ NCall.loadOn 0 "f" ∉ (EigenFaceRecognizer.load ⟨3, 3, 0⟩ wA "f" envA).1
      ∧ (EigenFaceRecognizer.save (⟨none⟩ : FaceRecognizerWrapper Nat) "f" envA).1 = [] := by
  refine ⟨rfl, ?_, ?_, rfl⟩ <;> decide

/-- C1 (amended): for every OpenCV version, path, and wrapper holding a
non-null handle, `save` and `load` each forward to exactly one native call
with the path passed unchanged; `save` invokes it on the held handle, and
`load` invokes it on the held handle exactly when the version is below
3.3.0, the call being the static `cv::Algorithm::load` of the wrapper class
on 3.3.0 and above. -/
theorem c1_single_forward {M : Type} (v : CVVersion) (w : FaceRecognizerWrapper M)
    (h : Handle M) (path : String) (env : NativeEnv M)
    (hw : w.faceRecognizer = some h) :
    (EigenFaceRecognizer.save w path env).1 = [NCall.saveOn h.ptr path]
      ∧ (LBPHFaceRecognizer.save w path env).1 = [NCall.saveOn h.ptr path]
      ∧ (EigenFaceRecognizer.load v w path env).1
          = (if v.greaterEqual 3 3 0 then
              [NCall.algoLoad "cv::face::EigenFaceRecognizer" path]
            else [NCall.loadOn h.ptr path])
      ∧ (LBPHFaceRecognizer.load v w path env).1
          = (if v.greaterEqual 3 3 0 then
              [NCall.algoLoad "cv::face::LBPHFaceRecognizer" path]
            else [NCall.loadOn h.ptr path]) := by
  refine ⟨?_, ?_, ?_, ?_⟩ <;>
    simp only [EigenFaceRecognizer.save, LBPHFaceRecognizer.save,
      EigenFaceRecognizer.load, LBPHFaceRecognizer.load,
      FaceRecognizerWrapper.save, FaceRecognizerWrapper.loadAs, hw] <;>
    split <;> simp

/-- Witness for c1_single_forward at OpenCV 3.2.0 on the concrete fixture. -/
theorem c1_single_forward_witness :
    (EigenFaceRecognizer.save wA "f" envA).1 = [NCall.saveOn 0 "f"]
      ∧ (LBPHFaceRecognizer.save wA "f" envA).1 = [NCall.saveOn 0 "f"]
      ∧ (EigenFaceRecognizer.load ⟨3, 2, 0⟩ wA "f" envA).1 = [NCall.loadOn 0 "f"]
      ∧ (LBPHFaceRecognizer.load ⟨3, 2, 0⟩ wA "f" envA).1 = [NCall.loadOn 0 "f"] :=
  c1_single_forward ⟨3, 2, 0⟩ wA ⟨0, 5⟩ "f" envA rfl

/-- C2 fails as stated: the TrackerMOSSE and TrackerGOTURN class bodies
declare neither a save nor a load member. -/
theorem c2_counterexample :
    "save" ∉ TrackerMOSSE.declaredMembers ∧ "load" ∉ TrackerMOSSE.declaredMembers
      ∧ "save" ∉ TrackerGOTURN.declaredMembers
      ∧ "load" ∉ TrackerGOTURN.declaredMembers := by
  decide

/-- C2 (amended): the face-recognizer wrapper classes declare save, load,
Init and New entry points; the tracker wrapper classes declare Init, New,
a constructor template and getTracker, but no save or load. -/
theorem c2_declared_entry_points :
    "save" ∈ EigenFaceRecognizer.declaredMembers
      ∧ "load" ∈ EigenFaceRecognizer.declaredMembers
      ∧ "Init" ∈ EigenFaceRecognizer.declaredMembers
      ∧ "New" ∈ EigenFaceRecognizer.declaredMembers
      ∧ "save" ∈ LBPHFaceRecognizer.declaredMembers
      ∧ "load" ∈ LBPHFaceRecognizer.declaredMembers
      ∧ "Init" ∈ LBPHFaceRecognizer.declaredMembers
      ∧ "New" ∈ LBPHFaceRecognizer.declaredMembers
      ∧ "Init" ∈ TrackerMOSSE.declaredMembers
      ∧ "New" ∈ TrackerMOSSE.declaredMembers
      ∧ "constructor" ∈ TrackerMOSSE.declaredMembers
      ∧ "getTracker" ∈ TrackerMOSSE.declaredMembers
      ∧ "Init" ∈ TrackerGOTURN.declaredMembers
      ∧ "New" ∈ TrackerGOTURN.declaredMembers
      ∧ "constructor" ∈ TrackerGOTURN.declaredMembers
      ∧ "getTracker" ∈ TrackerGOTURN.declaredMembers
      ∧ "save" ∉ TrackerMOSSE.declaredMembers
      ∧ "load" ∉ TrackerMOSSE.declaredMembers
      ∧ "save" ∉ TrackerGOTURN.declaredMembers
      ∧ "load" ∉ TrackerGOTURN.declaredMembers := by
  decide

/-- Helper for the save/load round trip, generic in the template class
name: saving the held model and then loading the same path succeeds and
reproduces the saved model, on every OpenCV version. -/
theorem FaceRecognizerWrapper.save_loadAs_roundtrip {M : Type} (cls : String)
    (v : CVVersion) (w : FaceRecognizerWrapper M) (h : Handle M) (path : String)
    (env : NativeEnv M) (hw : w.faceRecognizer = some h)
    (hwr : env.writable path = true) :
    ∃ w1 env1 w2 env2 h2,
      (FaceRecognizerWrapper.save w path env).2 = Except.ok (w1, env1)
        ∧ (FaceRecognizerWrapper.loadAs cls v w1 path env1).2 = Except.ok (w2, env2)
        ∧ w2.faceRecognizer = some h2 ∧ h2.model = h.model := by
  have hsave : (FaceRecognizerWrapper.save w path env).2
      = Except.ok (w, { env with
          fs := fun p => if p = path then some h.model else env.fs p }) := by
    simp [FaceRecognizerWrapper.save, nativeSave, hw, hwr]
  by_cases hv : v.greaterEqual 3 3 0 = true
  · refine ⟨w, _, ⟨some ⟨env.nextPtr, h.model⟩⟩,
      { env with
        fs := fun p => if p = path then some h.model else env.fs p
        nextPtr := env.nextPtr + 1 },
      ⟨env.nextPtr, h.model⟩, hsave, ?_, rfl, rfl⟩
    simp [FaceRecognizerWrapper.loadAs, hv, algorithmLoad]
  · refine ⟨w, _, ⟨some ⟨h.ptr, h.model⟩⟩,
      { env with fs := fun p => if p = path then some h.model else env.fs p },
      ⟨h.ptr, h.model⟩, hsave, ?_, rfl, rfl⟩
    simp [FaceRecognizerWrapper.loadAs, hv, hw, nativeInstanceLoad]

/-- C3: for both face-recognizer wrappers, on every OpenCV version, calling
save(path) and then load(path) on a wrapper holding a model succeeds (the
path being writable) and yields a wrapper whose model equals the one that
was saved. -/
theorem c3_save_load_roundtrip {M : Type} (v : CVVersion)
    (w : FaceRecognizerWrapper M) (h : Handle M) (path : String)
    (env : NativeEnv M) (hw : w.faceRecognizer = some h)
    (hwr : env.writable path = true) :
    (∃ w1 env1 w2 env2 h2,
        (EigenFaceRecognizer.save w path env).2 = Except.ok (w1, env1)
          ∧ (EigenFaceRecognizer.load v w1 path env1).2 = Except.ok (w2, env2)
          ∧ w2.faceRecognizer = some h2 ∧ h2.model = h.model)
      ∧ (∃ w1 env1 w2 env2 h2,
        (LBPHFaceRecognizer.save w path env).2 = Except.ok (w1, env1)
          ∧ (LBPHFaceRecognizer.load v w1 path env1).2 = Except.ok (w2, env2)
          ∧ w2.faceRecognizer = some h2 ∧ h2.model = h.model) :=
  ⟨FaceRecognizerWrapper.save_loadAs_roundtrip "cv::face::EigenFaceRecognizer"
      v w h path env hw hwr,
    FaceRecognizerWrapper.save_loadAs_roundtrip "cv::face::LBPHFaceRecognizer"
      v w h path env hw hwr⟩

/-- Witness for c3_save_load_roundtrip at OpenCV 3.3.0 on the concrete
fixture. -/
theorem c3_save_load_roundtrip_witness :
    (∃ w1 env1 w2 env2 h2,
        (EigenFaceRecognizer.save wA "f" envA).2 = Except.ok (w1, env1)
          ∧ (EigenFaceRecognizer.load ⟨3, 3, 0⟩ w1 "f" env1).2 = Except.ok (w2, env2)
          ∧ w2.faceRecognizer = some h2 ∧ h2.model = (5 : Nat))
      ∧ (∃ w1 env1 w2 env2 h2,
        (LBPHFaceRecognizer.save wA "f" envA).2 = Except.ok (w1, env1)
          ∧ (LBPHFaceRecognizer.load ⟨3, 3, 0⟩ w1 "f" env1).2 = Except.ok (w2, env2)
          ∧ w2.faceRecognizer = some h2 ∧ h2.model = (5 : Nat)) :=
  c3_save_load_roundtrip ⟨3, 3, 0⟩ wA ⟨0, 5⟩ "f" envA rfl rfl

/-- C4 fails as stated: on OpenCV 3.3.0 the load entry point reassigns the
handle field after construction.  The wrapper holds the handle at pointer 0
with model 5; loading path "f" leaves it holding a freshly allocated handle
at pointer 1 with model 7, a different handle than the one it was
constructed with. -/
theorem c4_counterexample :
    wA.faceRecognizer = some ⟨0, 5⟩
      ∧ (EigenFaceRecognizer.load ⟨3, 3, 0⟩ wA "f" envA).2
          = Except.ok (⟨some ⟨1, 7⟩⟩, ⟨fsA, fun _ => true, 2⟩)
      ∧ some (⟨1, 7⟩ : Handle Nat) ≠ some (⟨0, 5⟩ : Handle Nat) := by
  refine ⟨rfl, rfl, ?_⟩
  decide

/-- C4 (amended): save returns the wrapper with its handle field untouched,
the accessor leaves the wrapper unchanged, and below OpenCV 3.3.0 load
keeps the stored pointer, mutating the pointed-to object in place; only
load on OpenCV 3.3.0 and above replaces the handle field, with a freshly
loaded handle. -/
theorem c4_handle_frame {M : Type} (v : CVVersion) (cls : String)
    (w : FaceRecognizerWrapper M) (h : Handle M) (path : String)
    (env : NativeEnv M) (m : M) (hw : w.faceRecognizer = some h)
    (hwr : env.writable path = true) (hlt : v.greaterEqual 3 3 0 = false)
    (hfs : env.fs path = some m) :
    (FaceRecognizerWrapper.save w path env).2
        = Except.ok (w, { env with
            fs := fun p => if p = path then some h.model else env.fs p })
      ∧ (FaceRecognizerWrapper.loadAs cls v w path env).2
          = Except.ok (⟨some ⟨h.ptr, m⟩⟩, env)
      ∧ (FaceRecognizerWrapper.getFaceRecognizer w).2 = w := by
  refine ⟨?_, ?_, rfl⟩
  · simp [FaceRecognizerWrapper.save, nativeSave, hw, hwr]
  · simp [FaceRecognizerWrapper.loadAs, hlt, hw, nativeInstanceLoad, hfs]

/-- Witness for c4_handle_frame at OpenCV 3.2.0 on the concrete fixture. -/
theorem c4_handle_frame_witness :
    (FaceRecognizerWrapper.save wA "f" envA).2
        = Except.ok (wA, { envA with
            fs := fun p => if p = "f" then some (5 : Nat) else envA.fs p })
      ∧ (FaceRecognizerWrapper.loadAs "cv::face::EigenFaceRecognizer"
            ⟨3, 2, 0⟩ wA "f" envA).2
          = Except.ok (⟨some ⟨0, 7⟩⟩, envA)
      ∧ (FaceRecognizerWrapper.getFaceRecognizer wA).2 = wA :=
  c4_handle_frame ⟨3, 2, 0⟩ "cv::face::EigenFaceRecognizer" wA ⟨0, 5⟩ "f"
    envA 7 rfl rfl rfl rfl

/-- C5: save dereferences the stored handle with no wrapper-side guard —
with a null handle the entry point reaches the null dereference itself —
and when the handle is non-null the single native call is made and no
wrapper-side error branch is reachable: the outcome is never the
null-dereference crash. -/
theorem c5_save_unguarded {M : Type} (w : FaceRecognizerWrapper M)
    (h : Handle M) (path : String) (env : NativeEnv M)
    (hw : w.faceRecognizer = some h) :
    (FaceRecognizerWrapper.save w path env).1 = [NCall.saveOn h.ptr path]
      ∧ (FaceRecognizerWrapper.save w path env).2 ≠ Except.error Err.nullDeref
      ∧ (FaceRecognizerWrapper.save (⟨none⟩ : FaceRecognizerWrapper M) path env).2
          = Except.error Err.nullDeref := by
  refine ⟨?_, ?_, rfl⟩
  · simp [FaceRecognizerWrapper.save, hw]
  · simp only [FaceRecognizerWrapper.save, hw, nativeSave]
    split <;> simp

/-- Witness for c5_save_unguarded on the concrete fixture. -/
theorem c5_save_unguarded_witness :
    (FaceRecognizerWrapper.save wA "f" envA).1 = [NCall.saveOn 0 "f"]
      ∧ (FaceRecognizerWrapper.save wA "f" envA).2 ≠ Except.error Err.nullDeref
      ∧ (FaceRecognizerWrapper.save (⟨none⟩ : FaceRecognizerWrapper Nat) "f" envA).2
          = Except.error Err.nullDeref :=
  c5_save_unguarded wA ⟨0, 5⟩ "f" envA rfl

/-- C6: for a wrapper holding a handle, save(path) and load(path) error
exactly when the forwarded native call errors, and the error delivered is
the native error unchanged (wrapped in the outcome channel with no
translation): the save outcome is an error precisely when the native save
is, with the same error value, and likewise for load against the native
call its version branch forwards to. -/
theorem c6_error_passthrough {M : Type} (v : CVVersion) (cls : String)
    (w : FaceRecognizerWrapper M) (h : Handle M) (path : String)
    (env : NativeEnv M) (e : NativeErr) (hw : w.faceRecognizer = some h) :
    ((FaceRecognizerWrapper.save w path env).2 = Except.error (Err.native e)
        ↔ nativeSave h.model path env = Except.error e)
      ∧ (v.greaterEqual 3 3 0 = true →
          ((FaceRecognizerWrapper.loadAs cls v w path env).2
              = Except.error (Err.native e)
            ↔ algorithmLoad (M := M) path env = Except.error e))
      ∧ (v.greaterEqual 3 3 0 = false →
          ((FaceRecognizerWrapper.loadAs cls v w path env).2
              = Except.error (Err.native e)
            ↔ nativeInstanceLoad (M := M) path env = Except.error e)) := by
  refine ⟨?_, fun hv => ?_, fun hv => ?_⟩
  · cases hns : nativeSave h.model path env <;>
      simp [FaceRecognizerWrapper.save, hw, hns]
  · cases hal : algorithmLoad (M := M) path env <;>
      simp [FaceRecognizerWrapper.loadAs, hv, hal]
  · cases hil : nativeInstanceLoad (M := M) path env <;>
      simp [FaceRecognizerWrapper.loadAs, hv, hw, hil]

/-- Witness for c6_error_passthrough on the unwritable environment at
OpenCV 3.3.0: the save outcome carries the native cannot-write error
unchanged. -/
theorem c6_error_passthrough_witness :
    ((FaceRecognizerWrapper.save wA "f" envNoWrite).2
        = Except.error (Err.native (NativeErr.cannotWrite "f"))
      ↔ nativeSave (5 : Nat) "f" envNoWrite
        = Except.error (NativeErr.cannotWrite "f"))
      ∧ ((⟨3, 3, 0⟩ : CVVersion).greaterEqual 3 3 0 = true →
          ((FaceRecognizerWrapper.loadAs "cv::face::EigenFaceRecognizer"
              ⟨3, 3, 0⟩ wA "f" envNoWrite).2
              = Except.error (Err.native (NativeErr.cannotWrite "f"))
            ↔ algorithmLoad (M := Nat) "f" envNoWrite
              = Except.error (NativeErr.cannotWrite "f")))
      ∧ ((⟨3, 3, 0⟩ : CVVersion).greaterEqual 3 3 0 = false →
          ((FaceRecognizerWrapper.loadAs "cv::face::EigenFaceRecognizer"
              ⟨3, 3, 0⟩ wA "f" envNoWrite).2
              = Except.error (Err.native (NativeErr.cannotWrite "f"))
            ↔ nativeInstanceLoad (M := Nat) "f" envNoWrite
              = Except.error (NativeErr.cannotWrite "f"))) :=
  c6_error_passthrough ⟨3, 3, 0⟩ "cv::face::EigenFaceRecognizer" wA ⟨0, 5⟩
    "f" envNoWrite (NativeErr.cannotWrite "f") rfl

/-- C7: Objdetect::Init registers exactly CascadeClassifier, HOGDescriptor
and DetectionROI on the target, in source order, each exactly once and
nothing else; XFeatures2d::Init registers exactly SIFTDetector then
SURFDetector. -/
theorem c7_module_registration (target : Target) :
    Objdetect.Init target
        = target ++ ["CascadeClassifier", "HOGDescriptor", "DetectionROI"]
      ∧ XFeatures2d.Init target = target ++ ["SIFTDetector", "SURFDetector"] := by
  refine ⟨?_, ?_⟩ <;>
    simp [Objdetect.Init, XFeatures2d.Init, CascadeClassifier.Init,
      HOGDescriptor.Init, DetectionROI.Init, SIFTDetector.Init,
      SURFDetector.Init]

/-- C8: on OpenCV 3.3.0 and above, load never reads the previously stored
handle: loading the same path from the same environment out of any two
pre-states of the wrapper (one may hold a null handle) produces identical
results — trace, outcome, wrapper and environment — and the trace is the
single static Algorithm load, containing no call on any held handle. -/
theorem c8_load_prestate_independent {M : Type} (v : CVVersion) (cls : String)
    (w1 w2 : FaceRecognizerWrapper M) (path : String) (env : NativeEnv M)
    (hv : v.greaterEqual 3 3 0 = true) :
    FaceRecognizerWrapper.loadAs cls v w1 path env
        = FaceRecognizerWrapper.loadAs cls v w2 path env
      ∧ (FaceRecognizerWrapper.loadAs cls v w1 path env).1
          = [NCall.algoLoad cls path] := by
  constructor <;> simp [FaceRecognizerWrapper.loadAs, hv]

/-- Witness for c8_load_prestate_independent at OpenCV 3.3.0, comparing a
null-handle pre-state with the concrete fixture. -/
theorem c8_load_prestate_independent_witness :
    FaceRecognizerWrapper.loadAs "cv::face::LBPHFaceRecognizer" ⟨3, 3, 0⟩
        (⟨none⟩ : FaceRecognizerWrapper Nat) "f" envA
      = FaceRecognizerWrapper.loadAs "cv::face::LBPHFaceRecognizer" ⟨3, 3, 0⟩
        wA "f" envA
      ∧ (FaceRecognizerWrapper.loadAs "cv::face::LBPHFaceRecognizer" ⟨3, 3, 0⟩
          (⟨none⟩ : FaceRecognizerWrapper Nat) "f" envA).1
        = [NCall.algoLoad "cv::face::LBPHFaceRecognizer" "f"] :=
  c8_load_prestate_independent ⟨3, 3, 0⟩ "cv::face::LBPHFaceRecognizer"
    ⟨none⟩ wA "f" envA rfl

/-- C9: the accessors are pure observers: getFaceRecognizer returns exactly
the handle stored in the faceRecognizer field and getTracker exactly the
handle stored in the tracker field, each leaving the wrapper state
unchanged. -/
theorem c9_accessors_pure {M : Type} (w : FaceRecognizerWrapper M)
    (t : TrackerWrapper M) :
    FaceRecognizerWrapper.getFaceRecognizer w = (w.faceRecognizer, w)
      ∧ TrackerWrapper.getTracker t = (t.tracker, t) :=
  ⟨rfl, rfl⟩

/-- C10: the wrapper surface is compile-time gated: TrackerMOSSE survives
preprocessing exactly when the OpenCV version is at least 3.4.0,
TrackerGOTURN exactly when at least 3.2.0, the Objdetect registration
exactly when HAVE_OPENCV_OBJDETECT is set, and the XFeatures2d registration
exactly when HAVE_OPENCV_XFEATURES2D is set. -/
theorem c10_surface_gated (cfg : BuildConfig) :
    ("TrackerMOSSE" ∈ compiledSurface cfg
        ↔ cfg.version.greaterEqual 3 4 0 = true)
      ∧ ("TrackerGOTURN" ∈ compiledSurface cfg
        ↔ cfg.version.greaterEqual 3 2 0 = true)
      ∧ ("Objdetect::Init" ∈ compiledSurface cfg ↔ cfg.haveObjdetect = true)
      ∧ ("XFeatures2d::Init" ∈ compiledSurface cfg
        ↔ cfg.haveXFeatures2d = true) := by
  obtain ⟨v, ho, hx⟩ := cfg
  cases h34 : v.greaterEqual 3 4 0 <;> cases h32 : v.greaterEqual 3 2 0 <;>
    cases ho <;> cases hx <;> simp [compiledSurface, h34, h32]
